import Mathlib

/-!
Verification of the `/ask` webhook backend (src/app.py): the study-resource
matcher `get_resources_from_query`, the reply composition performed in the
`ask` route, and the route's control flow (model-uninitialized short circuit,
input validation, model-outcome handling, resource-error isolation, catch-all).
Strings are modelled as Lean `String`; Python `str.lower` and `str.strip` are
modelled character-wise over the underlying character list.
-/

/-- Character-wise lowercasing, modelling Python `str.lower()` on the
ASCII keywords and queries this program works with. -/
def strLower (s : String) : String := ⟨s.data.map Char.toLower⟩

/-- Leading/trailing-whitespace removal, modelling Python `str.strip()`
as used on the model reply text. -/
def strTrim (s : String) : String :=
  ⟨((s.data.dropWhile Char.isWhitespace).reverse.dropWhile Char.isWhitespace).reverse⟩

/-- Contiguous-substring occurrence on character lists, modelling the Python
`in` operator on strings (`keyword in query_lower`). -/
def containsSub (needle : List Char) : List Char → Bool
  | [] => needle.isEmpty
  | h :: t => needle.isPrefixOf (h :: t) || containsSub needle t

/-- The static study-resource dictionary of src/app.py, in its literal
(insertion) order. -/
def study_resources : List (String × List String) :=
  [ ("biology",
      [ "Khan Academy Biology (https://www.khanacademy.org/science/biology)",
        "Nature Biology Subject Page (https://www.nature.com/subjects/biology)" ]),
    ("photosynthesis",
      [ "Khan Academy - Photosynthesis (https://www.khanacademy.org/science/biology/photosynthesis-in-plants)",
        "Britannica - Photosynthesis (https://www.britannica.com/science/photosynthesis)" ]),
    ("quantum physics",
      [ "Stanford Encyclopedia of Philosophy - Quantum Mechanics (https://plato.stanford.edu/entries/qm/)",
        "Khan Academy - Quantum Physics (https://www.khanacademy.org/science/physics/quantum-physics)" ]),
    ("calculus",
      [ "Khan Academy Calculus 1 (https://www.khanacademy.org/math/calculus-1)",
        "MIT OCW Single Variable Calculus (https://ocw.mit.edu/courses/18-01sc-single-variable-calculus-fall-2010/)" ]),
    ("python",
      [ "Official Python Tutorial (https://docs.python.org/3/tutorial/)",
        "Real Python Website (https://realpython.com/)" ]),
    ("jee",
      [ "Embibe JEE Study Material (https://www.embibe.com/exams/jee-main-study-material/)",
        "Khan Academy JEE Prep (https://www.khanacademy.org/test-prep/jee)" ]) ]

/-- One iteration of the keyword loop in `get_resources_from_query`:
the accumulator carries `matched_links` and the `found_keywords` set
(modelled as a list, membership up to equality). -/
def matchStep (ql : List Char) (acc : List String × List String)
    (kv : String × List String) : List String × List String :=
  if containsSub kv.1.data ql = true ∧ kv.1 ∉ acc.2 then
    (acc.1 ++ kv.2, acc.2 ++ [kv.1])
  else acc

/-- `get_resources_from_query` of src/app.py: empty query short-circuits to
`[]`; otherwise the keyword table is scanned in order, extending
`matched_links` with the links of each keyword occurring in the lowercased
query that was not already found. -/
def get_resources_from_query (query : String) : List String :=
  if query.data.isEmpty then []
  else (study_resources.foldl (matchStep (strLower query).data) ([], [])).1

/-- The Resource Matcher contract as the specification words it: the
concatenation, in table iteration order, of the descriptor lists of every
keyword that occurs as a substring of the lowercased query, each matching
keyword contributing its list exactly once. -/
def resources_spec (query : String) : List String :=
  (study_resources.filter
      (fun kv => containsSub kv.1.data (strLower query).data)).flatMap Prod.snd

theorem foldl_matchStep_eq (ql : List Char) (tbl : List (String × List String)) :
    ∀ (acc found : List String), (tbl.map Prod.fst).Nodup →
    (∀ kv ∈ tbl, kv.1 ∉ found) →
    (tbl.foldl (matchStep ql) (acc, found)).1
      = acc ++ (tbl.filter (fun kv => containsSub kv.1.data ql)).flatMap Prod.snd := by
  induction tbl with
  | nil => intro acc found _ _; simp
  | cons kv t ih =>
    intro acc found hnd hdisj
    have hkv : kv.1 ∉ found := hdisj kv (List.mem_cons_self kv t)
    have hnd' : (t.map Prod.fst).Nodup := by
      rw [List.map_cons, List.nodup_cons] at hnd; exact hnd.2
    have hhead : kv.1 ∉ t.map Prod.fst := by
      rw [List.map_cons, List.nodup_cons] at hnd; exact hnd.1
    rw [List.foldl_cons, List.filter_cons]
    by_cases hc : containsSub kv.1.data ql = true
    · have hstep : matchStep ql (acc, found) kv = (acc ++ kv.2, found ++ [kv.1]) := by
        simp only [matchStep]
        rw [if_pos ⟨hc, hkv⟩]
      have hdisj' : ∀ kv' ∈ t, kv'.1 ∉ found ++ [kv.1] := by
        intro kv' hm
        rw [List.mem_append, List.mem_singleton]
        rintro (h | h)
        · exact hdisj kv' (List.mem_cons_of_mem kv hm) h
        · exact hhead (by rw [← h]; exact List.mem_map_of_mem Prod.fst hm)
      rw [hstep, ih (acc ++ kv.2) (found ++ [kv.1]) hnd' hdisj']
      simp [hc, List.append_assoc]
    · have hstep : matchStep ql (acc, found) kv = (acc, found) := by
        simp only [matchStep]
        rw [if_neg]
        intro hand; exact hc hand.1
      rw [hstep, ih acc found hnd' (fun kv' hm => hdisj kv' (List.mem_cons_of_mem kv hm))]
      simp [hc]

/-- The scanned fold of the source refines the filter-and-concatenate
contract of the specification. -/
theorem resources_refines (query : String) :
    get_resources_from_query query = resources_spec query := by
  unfold get_resources_from_query resources_spec
  by_cases h : query.data.isEmpty = true
  · rw [if_pos h]
    have hq : query = "" := by
      cases query with
      | mk d =>
        rw [List.isEmpty_iff] at h
        simp only at h
        subst h; rfl
    subst hq
    rfl
  · rw [if_neg h]
    rw [foldl_matchStep_eq (strLower query).data study_resources [] []
      (by decide) (by simp)]
    simp

/-- The submitter role of one dialogue turn. -/
inductive Role where
  | user
  | bot
deriving DecidableEq

/-- One turn of dialogue: a role and its text. -/
structure Exchange where
  role : Role
  content : String
deriving DecidableEq

/-- Modelled from the spec: the Context Window Manager of section 4.2 is
absent from src/app.py (the source is the flat `queryText` webhook variant
carrying no conversation context), so it is modelled from the specification
text: given a depth limit `D`, keep the most recent `2 * D` entries of the
context, discarding older entries from the front. -/
def trim_context (D : Nat) (ctx : List Exchange) : List Exchange :=
  (ctx.reverse.take (2 * D)).reverse

theorem trim_context_eq_drop (D : Nat) (ctx : List Exchange) :
    trim_context D ctx = ctx.drop (ctx.length - 2 * D) := by
  unfold trim_context
  rw [List.reverse_take]
  simp

/-- The outcome of the single `model.generate_content` call as observed by
the `ask` route: the call raises, or succeeds with zero candidates (with an
optional block reason exposed by the prompt feedback), or succeeds with
candidates but reading `response.text` raises, or yields a text. -/
inductive GenOutcome where
  | apiError
  | noCandidates (block_reason : Option String)
  | extractError
  | text (s : String)

/-- The `gemini_reply` value produced by Step 1 of the `ask` route for each
model-call outcome (src/app.py lines 133-166). -/
def geminiReply : GenOutcome → String
  | .apiError => "Sorry, there was a technical problem contacting the AI assistant."
  | .noCandidates none =>
      "I couldn\x27t generate a response, possibly due to content restrictions."
  | .noCandidates (some r) =>
      "I couldn\x27t generate a response, possibly due to content restrictions."
        ++ " (Reason: " ++ r ++ ")"
  | .extractError => "Sorry, there was an issue reading the AI\x27s response."
  | .text s => strTrim s

/-- The `resources_text` string built by Step 2 of the `ask` route: the
header line, then one bullet line appended per link. -/
def resourcesText (resources : List String) : String :=
  resources.foldl (fun acc link => acc ++ "- " ++ link ++ "\n")
    "\n\n📚 **Here are some potentially helpful resources:**\n"

/-- Step 2 of the `ask` route: `final_reply` starts as `gemini_reply`; if the
resource lookup raises, it is left unchanged; if the lookup returns a
non-empty list, the formatted resources text is appended. -/
def composeReply (gemini_reply : String) (lookup : Except Unit (List String)) : String :=
  match lookup with
  | .error _ => gemini_reply
  | .ok resources =>
      if resources.isEmpty then gemini_reply
      else gemini_reply ++ resourcesText resources

/-- The parsed request body as the `ask` route sees it: `invalid` models
`request.get_json(silent=True)` yielding a falsy value (unparseable, empty,
or empty-object body); `parsed qt` models a truthy JSON body whose
`queryResult.queryText` extraction gave `qt` (`none` when absent). -/
inductive ReqBody where
  | invalid
  | parsed (queryText : Option String)

/-- The HTTP outcome of one `/ask` request: the status code (Flask defaults
to 200 when no explicit status accompanies the `jsonify` return) and the
`fulfillmentText` field of the JSON body. -/
structure AskResult where
  status : Nat
  fulfillmentText : String
deriving DecidableEq

/-- The `ask` route of src/app.py (lines 110-194). Parameters: whether the
module-level `model` is non-None; the parsed body; whether an unexpected
exception (carrying its detail string) escapes the inner handlers and
reaches the top-level `except`; the model-call outcome; and the resource
lookup, `Except`-valued so that a raising lookup is representable. -/
def ask : Bool → ReqBody → Option String → GenOutcome →
    (String → Except Unit (List String)) → AskResult
  | false, _, _, _, _ => ⟨200, "Sorry, the AI model connection is down."⟩
  | true, body, unexpected, gen, lookup =>
    match unexpected with
    | some _ => ⟨200, "An unexpected server error occurred."⟩
    | none =>
      match body with
      | .invalid => ⟨400, "Error: Invalid request received."⟩
      | .parsed none => ⟨200, "I didn\x27t receive a message to process."⟩
      | .parsed (some msg) =>
        if msg.data.isEmpty then ⟨200, "I didn\x27t receive a message to process."⟩
        else ⟨200, composeReply (geminiReply gen) (lookup msg)⟩

/-- The lookup the route actually performs: `get_resources_from_query`,
which never raises. -/
def realLookup : String → Except Unit (List String) :=
  fun q => Except.ok (get_resources_from_query q)

/-- The bullet block of the resources section as the specification words it:
one bullet line per descriptor, in matched order. -/
def bulletsOf : List String → String
  | [] => ""
  | l :: t => "- " ++ l ++ "\n" ++ bulletsOf t

theorem str_eq_empty_of_data (a : String) (h : a.data = []) : a = "" := by
  cases a; simp only at h; subst h; rfl

theorem str_append_ne_empty (a b : String) (h : a ≠ "") : a ++ b ≠ "" := by
  intro hab
  apply h
  have hd : a.data ++ b.data = [] := by
    rw [← String.data_append, hab]
  exact str_eq_empty_of_data a (List.append_eq_nil.mp hd).1

theorem foldl_bullets (rs : List String) (init : String) :
    rs.foldl (fun acc link => acc ++ "- " ++ link ++ "\n") init
      = init ++ bulletsOf rs := by
  induction rs generalizing init with
  | nil => simp [bulletsOf, String.append_empty]
  | cons l t ih =>
    rw [List.foldl_cons, ih, bulletsOf]
    simp [String.append_assoc]

theorem geminiReply_ne_empty (gen : GenOutcome)
    (hgen : ∀ s, gen = GenOutcome.text s → strTrim s ≠ "") :
    geminiReply gen ≠ "" := by
  cases gen with
  | apiError => decide
  | extractError => decide
  | noCandidates r =>
    cases r with
    | none => decide
    | some reason =>
      exact str_append_ne_empty _ _ (str_append_ne_empty _ _ (by decide))
  | text s => exact hgen s rfl

theorem str_append_ne_empty_right (a b : String) (h : b ≠ "") : a ++ b ≠ "" := by
  intro hab
  apply h
  have hd : a.data ++ b.data = [] := by
    rw [← String.data_append, hab]
  exact str_eq_empty_of_data b (List.append_eq_nil.mp hd).2

theorem resourcesText_ne_empty (rs : List String) : resourcesText rs ≠ "" := by
  unfold resourcesText
  rw [foldl_bullets]
  exact str_append_ne_empty _ _ (by decide)

theorem composeReply_ne_empty (g : String) (lk : Except Unit (List String))
    (hg : g ≠ "") : composeReply g lk ≠ "" := by
  cases lk with
  | error e => exact hg
  | ok rs =>
    simp only [composeReply]
    split
    · exact hg
    · exact str_append_ne_empty _ _ hg

/-- Claim C1 (amended): when the model client was never initialized, every
`/ask` request yields the fixed "service unavailable" message, independently
of the body, the model outcome and the lookup (no model call can influence
the result), but with HTTP status 200, not 503: the source returns the
`jsonify` payload without an explicit status code. -/
theorem ask_uninitialized (body : ReqBody) (u : Option String) (gen : GenOutcome)
    (lookup : String → Except Unit (List String)) :
    ask false body u gen lookup
      = ⟨200, "Sorry, the AI model connection is down."⟩ := rfl

/-- Claim C1, counterexample to the stated status code: with the model
uninitialized the route answers 200, not 503. -/
theorem ask_uninitialized_not_503 :
    (ask false (ReqBody.parsed (some "hi")) none GenOutcome.apiError
      (fun _ => Except.ok [])).status ≠ 503 := by decide

theorem ask_uninitialized_witness :
    ask false ReqBody.invalid none GenOutcome.apiError (fun _ => Except.ok [])
      = ⟨200, "Sorry, the AI model connection is down."⟩ :=
  ask_uninitialized ReqBody.invalid none GenOutcome.apiError (fun _ => Except.ok [])

/-- Claim C2 (amended): an unparseable, empty or falsy JSON body yields
status 400 with the invalid-request message; a truthy JSON body whose user
message is missing or empty yields the "no message" reply with HTTP status
200 (no explicit status code accompanies that return), not 400. -/
theorem ask_bad_input (msg : String) (gen : GenOutcome)
    (lookup : String → Except Unit (List String)) :
    ask true ReqBody.invalid none gen lookup
      = ⟨400, "Error: Invalid request received."⟩ ∧
    ask true (ReqBody.parsed none) none gen lookup
      = ⟨200, "I didn\x27t receive a message to process."⟩ ∧
    (msg.data.isEmpty = true →
      ask true (ReqBody.parsed (some msg)) none gen lookup
        = ⟨200, "I didn\x27t receive a message to process."⟩) := by
  refine ⟨rfl, rfl, fun h => ?_⟩
  simp [ask, h]

theorem ask_bad_input_witness :
    ask true (ReqBody.parsed (some "")) none GenOutcome.apiError (fun _ => Except.ok [])
      = ⟨200, "I didn\x27t receive a message to process."⟩ :=
  (ask_bad_input "" GenOutcome.apiError (fun _ => Except.ok [])).2.2 (by decide)

/-- Claim C2, counterexample to the stated status code: a parsed body with
an empty user message is answered with status 200, not 400. -/
theorem ask_empty_message_not_400 :
    (ask true (ReqBody.parsed (some "")) none GenOutcome.apiError
      (fun _ => Except.ok [])).status ≠ 400 := by decide

/-- Claim C3: for every query, the resource matcher returns exactly the
concatenation, in the static table iteration order, of the descriptor lists
of every keyword occurring as a substring of the lowercased query, each
matching keyword contributing its list exactly once. -/
theorem get_resources_concat_spec (query : String) :
    get_resources_from_query query = resources_spec query :=
  resources_refines query

theorem get_resources_concat_spec_witness :
    get_resources_from_query "I love PYTHON scripting"
      = resources_spec "I love PYTHON scripting" :=
  get_resources_concat_spec "I love PYTHON scripting"

/-- Claim C4: the Context Window Manager is a stable suffix-take: a context
longer than 2×D entries is cut to exactly its trailing 2×D entries in
original order, and a context of at most 2×D entries is returned unchanged. -/
theorem trim_context_window (D : Nat) (ctx : List Exchange) :
    (2 * D < ctx.length →
      (trim_context D ctx).length = 2 * D ∧
        trim_context D ctx = ctx.drop (ctx.length - 2 * D)) ∧
    (ctx.length ≤ 2 * D → trim_context D ctx = ctx) := by
  constructor
  · intro h
    refine ⟨?_, trim_context_eq_drop D ctx⟩
    rw [trim_context_eq_drop, List.length_drop]
    omega
  · intro h
    rw [trim_context_eq_drop]
    have h0 : ctx.length - 2 * D = 0 := by omega
    rw [h0, List.drop_zero]

theorem trim_context_window_witness :
    (trim_context 1 [⟨Role.user, "a"⟩, ⟨Role.bot, "b"⟩, ⟨Role.user, "c"⟩]).length = 2 ∧
    trim_context 1 [⟨Role.user, "a"⟩, ⟨Role.bot, "b"⟩, ⟨Role.user, "c"⟩]
      = List.drop ((([⟨Role.user, "a"⟩, ⟨Role.bot, "b"⟩, ⟨Role.user, "c"⟩] :
          List Exchange).length) - 2 * 1)
          [⟨Role.user, "a"⟩, ⟨Role.bot, "b"⟩, ⟨Role.user, "c"⟩] :=
  (trim_context_window 1 [⟨Role.user, "a"⟩, ⟨Role.bot, "b"⟩, ⟨Role.user, "c"⟩]).1
    (by decide)

/-- Claim C5 (amended): an unexpected failure inside the `/ask` pipeline is
caught at the top level and answered with the fixed generic message,
independently of the failure detail (no internal detail reaches the caller),
but with HTTP status 200, not 500: the catch-all return carries no explicit
status code. -/
theorem ask_catch_all (body : ReqBody) (detail : String) (gen : GenOutcome)
    (lookup : String → Except Unit (List String)) :
    ask true body (some detail) gen lookup
      = ⟨200, "An unexpected server error occurred."⟩ := rfl

theorem ask_catch_all_witness :
    ask true (ReqBody.parsed (some "hi")) (some "ZeroDivisionError: division by zero")
      GenOutcome.apiError (fun _ => Except.ok [])
      = ⟨200, "An unexpected server error occurred."⟩ :=
  ask_catch_all (ReqBody.parsed (some "hi")) "ZeroDivisionError: division by zero"
    GenOutcome.apiError (fun _ => Except.ok [])

/-- Claim C5, counterexample to the stated status code: the catch-all
answers with status 200, not 500. -/
theorem ask_unexpected_not_500 :
    (ask true (ReqBody.parsed (some "hi")) (some "ZeroDivisionError: division by zero")
      GenOutcome.apiError (fun _ => Except.ok [])).status ≠ 500 := by decide

/-- Claim C6: on a successful model call with zero candidates the gateway
step produces the fixed fallback string, and when a block reason is exposed
it is appended to that fallback, never dropped. -/
theorem gemini_zero_candidates (r : String) :
    geminiReply (GenOutcome.noCandidates none)
      = "I couldn\x27t generate a response, possibly due to content restrictions." ∧
    geminiReply (GenOutcome.noCandidates (some r))
      = "I couldn\x27t generate a response, possibly due to content restrictions."
          ++ " (Reason: " ++ r ++ ")" :=
  ⟨rfl, rfl⟩

theorem gemini_zero_candidates_witness :
    geminiReply (GenOutcome.noCandidates (some "SAFETY"))
      = "I couldn\x27t generate a response, possibly due to content restrictions."
          ++ " (Reason: " ++ "SAFETY" ++ ")" :=
  (gemini_zero_candidates "SAFETY").2

/-- Claim C7: a raising resource lookup leaves the composed reply equal to
the model reply, and on the route level a request whose lookup raises is
answered with exactly the model reply for every model outcome. -/
theorem resource_error_isolated (g msg : String) (gen : GenOutcome) :
    composeReply g (Except.error ()) = g ∧
    (msg.data.isEmpty = false →
      ask true (ReqBody.parsed (some msg)) none gen (fun _ => Except.error ())
        = ⟨200, geminiReply gen⟩) := by
  refine ⟨rfl, fun h => ?_⟩
  simp [ask, h, composeReply]

theorem resource_error_isolated_witness :
    ask true (ReqBody.parsed (some "hi")) none GenOutcome.apiError
      (fun _ => Except.error ())
      = ⟨200, geminiReply GenOutcome.apiError⟩ :=
  (resource_error_isolated "x" "hi" GenOutcome.apiError).2 (by decide)

/-- Claim C8: the resource matcher returns the empty list for the empty
query, and for every query in which no table keyword occurs as a substring
of the lowercased query. -/
theorem get_resources_empty (query : String) :
    get_resources_from_query "" = [] ∧
    ((∀ kv ∈ study_resources,
        containsSub kv.1.data (strLower query).data = false) →
      get_resources_from_query query = []) := by
  refine ⟨rfl, fun h => ?_⟩
  rw [resources_refines]
  unfold resources_spec
  rw [List.filter_eq_nil_iff.mpr (fun kv hm => by simp [h kv hm])]
  rfl

theorem get_resources_empty_witness :
    get_resources_from_query "hello there" = [] :=
  (get_resources_empty "hello there").2 (by decide)

/-- Claim C9: the composed reply equals the model reply when no descriptors
match, and otherwise equals the model reply followed by the header line and
one bullet line per descriptor in matched order. -/
theorem compose_reply_spec (g : String) (rs : List String) :
    composeReply g (Except.ok []) = g ∧
    (rs ≠ [] → composeReply g (Except.ok rs)
      = g ++ "\n\n📚 **Here are some potentially helpful resources:**\n"
          ++ bulletsOf rs) := by
  refine ⟨rfl, fun h => ?_⟩
  have hne : rs.isEmpty = false := by
    cases rs with
    | nil => exact absurd rfl h
    | cons a t => rfl
  simp only [composeReply, hne, Bool.false_eq_true, if_false]
  unfold resourcesText
  rw [foldl_bullets]
  simp [String.append_assoc]

theorem compose_reply_spec_witness :
    composeReply "R" (Except.ok ["lnk"])
      = "R" ++ "\n\n📚 **Here are some potentially helpful resources:**\n"
          ++ bulletsOf ["lnk"] :=
  (compose_reply_spec "R" ["lnk"]).2 (by decide)

/-- Claim C10 (amended): the `/ask` handler is total and always produces a
string `fulfillmentText`; that string is non-empty on every path except the
success path where the extracted candidate text trims to the empty string
and the resource lookup appends nothing — the hypothesis excludes exactly
that path: whenever the model text trims to empty on a message-carrying
body, the lookup is required to return a non-empty descriptor list (and the
appended header and bullets then make the text non-empty). -/
theorem ask_fulfillment_nonempty (mi : Bool) (body : ReqBody) (u : Option String)
    (gen : GenOutcome) (lookup : String → Except Unit (List String))
    (hgen : ∀ s msg, gen = GenOutcome.text s → strTrim s = "" →
      body = ReqBody.parsed (some msg) →
      ∃ rs, lookup msg = Except.ok rs ∧ rs ≠ []) :
    (ask mi body u gen lookup).fulfillmentText ≠ "" := by
  cases mi with
  | false => simp only [ask]; decide
  | true =>
    cases u with
    | some d => simp only [ask]; decide
    | none =>
      cases body with
      | invalid => simp only [ask]; decide
      | parsed qt =>
        cases qt with
        | none => simp only [ask]; decide
        | some msg =>
          simp only [ask]
          split
          · decide
          · by_cases hge : geminiReply gen = ""
            · cases gen with
              | apiError => exact absurd hge (by decide)
              | extractError => exact absurd hge (by decide)
              | noCandidates r =>
                cases r with
                | none => exact absurd hge (by decide)
                | some reason =>
                  exact absurd hge
                    (str_append_ne_empty _ _ (str_append_ne_empty _ _ (by decide)))
              | text s =>
                simp only [geminiReply] at hge
                obtain ⟨rs, hlk, hrs⟩ := hgen s msg rfl hge rfl
                rw [hlk]
                have hne : rs.isEmpty = false := by
                  cases rs with
                  | nil => exact absurd rfl hrs
                  | cons a t => rfl
                simp only [composeReply, hne, Bool.false_eq_true, if_false]
                exact str_append_ne_empty_right _ _ (resourcesText_ne_empty rs)
            · exact composeReply_ne_empty _ _ hge

theorem ask_fulfillment_nonempty_witness :
    (ask true (ReqBody.parsed (some "python is fun")) none (GenOutcome.text " ")
      realLookup).fulfillmentText ≠ "" :=
  ask_fulfillment_nonempty true (ReqBody.parsed (some "python is fun")) none
    (GenOutcome.text " ") realLookup
    (fun s msg hs ht hb => by
      cases hs; cases hb
      exact ⟨get_resources_from_query "python is fun", rfl, by decide⟩)

/-- Claim C10, counterexample to unconditional non-emptiness: a model call
whose candidate text is a single space, on a query matching no resource
keyword, is answered with an empty `fulfillmentText`. -/
theorem ask_fulfillment_empty_cex :
    (ask true (ReqBody.parsed (some "zzz")) none (GenOutcome.text " ")
      realLookup).fulfillmentText = "" := by decide
